import Mathlib

/-!
Shallow embedding of the authentication / authorization / token subsystem of
the `api-rest` user-management backend (Express + Mongoose), together with
proofs about the claims of its specification.

The embedding follows the JavaScript sources:
  * `src/middlewares/auth.middleware.js` — `authenticate`, `authorize`,
    `authorizeRole`, `generateToken`;
  * `src/services/user.service.js` — `UserService.createUser`, `verifyEmail`,
    `resendVerificationEmail`, `login`, `requestPasswordReset`,
    `resetPassword`;
  * `src/dtos/user.dto.js` — `UserResponseDTO`, `CreateUserDTO`,
    `AuthResponseDTO`;
  * `src/models/User.js` — the Mongoose user schema.
Stateful database access (`User.findOne`, `user.save`, `User.create`) is
modelled by explicit state passing over a `List User` store; external
collaborators (bcrypt, the JWT HMAC, random token generation, Mongo id
generation, the clock) are passed in as explicit parameters.
-/

namespace ApiRest

/-! ### JavaScript value model

`authorize` compares the JWT-carried user id against `parseInt` of the path
parameter with the strict `!==` operator, so the embedding needs the relevant
fragment of JavaScript dynamic values: numbers (including `NaN`) and strings.
-/

/-- The fragment of JavaScript runtime values relevant to the middleware:
integral numbers, strings, and `NaN` (the result of a failed `parseInt`). -/
inductive JSVal where
  | num (n : Int)
  | str (s : String)
  | nan
deriving DecidableEq, Repr

/-- JavaScript strict equality `===` on the modelled value fragment: values of
different types are never strictly equal, and `NaN === NaN` is `false`. -/
def jsStrictEq : JSVal → JSVal → Bool
  | .num a, .num b => a == b
  | .str a, .str b => a == b
  | _, _ => false

/-- Model of the JavaScript `parseInt` builtin restricted to base-10 input:
skip leading whitespace, read an optional sign and then the longest prefix of
decimal digits; `NaN` when no digit is found. -/
def jsParseInt (s : String) : JSVal :=
  let cs := s.data.dropWhile (fun c => c.isWhitespace)
  let signAndRest : Bool × List Char :=
    match cs with
    | '-' :: rest => (true, rest)
    | '+' :: rest => (false, rest)
    | _ => (false, cs)
  let ds := signAndRest.2.takeWhile (fun c => c.isDigit)
  if ds.isEmpty then .nan
  else
    let n : Nat := ds.foldl (fun a c => a * 10 + (c.toNat - 48)) 0
    .num (if signAndRest.1 then -(n : Int) else (n : Int))

/-- JavaScript `s.startsWith(pre)`, modelled on the character sequence. -/
def jsStartsWith (s pre : String) : Bool :=
  pre.data.isPrefixOf s.data

/-- JavaScript `s.substring(n)`, modelled on the character sequence. -/
def jsSubstringFrom (s : String) (n : Nat) : String :=
  ⟨s.data.drop n⟩

/-- JavaScript `x || null` applied to an optional string field (`user.bio`):
an absent or empty string is falsy and collapses to `null`. -/
def jsOrNull : Option String → Option String
  | some s => if s == "" then none else some s
  | none => none

/-! ### Data model (`src/models/User.js`)

The Mongoose schema, with `timestamps: true`. The virtual `user.id` of a
Mongoose document is the hex string of its `_id`, so `id` is a `String`.
Dates are modelled as milliseconds since the epoch (`Nat`), matching
`Date.now()`.
-/

/-- A persisted user record, one per Mongoose document. -/
structure User where
  id : String
  email : String
  password : String
  firstName : String
  lastName : String
  bio : Option String
  role : String
  isEmailVerified : Bool
  emailVerificationToken : Option String
  emailVerificationTokenExpires : Option Nat
  passwordResetToken : Option String
  passwordResetTokenExpires : Option Nat
  createdAt : Nat
  updatedAt : Nat
deriving DecidableEq, Repr

/-- The `AppError` class of the error middleware
(`class AppError extends Error`): its constructor stores `message` (via
`super(message)`) and `statusCode` (`this.statusCode = statusCode`, with a
default of 500). Every throw site of the service layer passes both
arguments explicitly. -/
structure AppError where
  message : String
  statusCode : Nat := 500
deriving DecidableEq, Repr

/-- A `{ success, message }` JSON response body as returned by the service
functions. -/
structure MsgResponse where
  success : Bool
  message : String
deriving DecidableEq, Repr

/-! ### DTOs (`src/dtos/user.dto.js`) -/

/-- `UserResponseDTO`: the projection of a user record exposed to clients.
It copies only `id`, `email`, `firstName`, `lastName`, `bio` (with the
JavaScript `user.bio || null` fallback), `createdAt` and `updatedAt`. -/
structure UserResponseDTO where
  id : String
  email : String
  firstName : String
  lastName : String
  bio : Option String
  createdAt : Nat
  updatedAt : Nat
deriving DecidableEq, Repr

/-- The `UserResponseDTO` constructor applied to a user record. -/
def UserResponseDTO.ofUser (u : User) : UserResponseDTO :=
  { id := u.id
    email := u.email
    firstName := u.firstName
    lastName := u.lastName
    bio := jsOrNull u.bio
    createdAt := u.createdAt
    updatedAt := u.updatedAt }

/-- The raw registration request body. Clients may also send a `role` field
(the swagger route documentation even advertises a role enum), hence the
`role` component. -/
structure RegisterBody where
  email : String
  password : String
  firstName : String
  lastName : String
  role : Option String
deriving DecidableEq, Repr

/-- `CreateUserDTO`: the constructor copies only `email` (lower-cased and
trimmed), `password`, `firstName` and `lastName` (trimmed). The `role` field
records what a JavaScript property read `dto.role` yields: the constructor
never assigns it, so it is `undefined` (`none`). -/
structure CreateUserDTO where
  email : String
  password : String
  firstName : String
  lastName : String
  role : Option String
deriving DecidableEq, Repr

/-- `new CreateUserDTO(req.body)`: copies the four declared fields, never the
client-supplied `role`. -/
def CreateUserDTO.fromBody (b : RegisterBody) : CreateUserDTO :=
  { email := b.email.toLower.trim
    password := b.password
    firstName := b.firstName.trim
    lastName := b.lastName.trim
    role := none }

/-! ### Token codec (`generateToken` and the `jsonwebtoken` library)

`jwt.sign(payload, secret, { expiresIn: '24h' })` produces a token whose
payload carries `iat = now` and `exp = now + 24*60*60` (seconds) next to the
caller's claims, signed with an HMAC over the payload. The HMAC is modelled
as an explicit function parameter `mac`. -/

/-- The decoded JWT payload: the claims passed to `jwt.sign` plus the
`iat`/`exp` timestamps (seconds since the epoch). -/
structure JwtPayload where
  id : JSVal
  email : String
  role : String
  iat : Nat
  exp : Nat
deriving DecidableEq, Repr

/-- A signed token: a payload together with its signature value. -/
structure Jwt where
  payload : JwtPayload
  sig : Nat
deriving DecidableEq, Repr

/-- The `expiresIn: '24h'` session-token lifetime, in seconds. -/
def sessionTtlSec : Nat := 24 * 60 * 60

/-- `generateToken(userId, email, role)`: signs `{ id, email, role }` with the
shared secret and a 24-hour expiry. -/
def generateToken (mac : String → JwtPayload → Nat) (secret : String)
    (nowSec : Nat) (userId : JSVal) (email : String) (role : String) : Jwt :=
  let p : JwtPayload :=
    { id := userId, email := email, role := role
      iat := nowSec, exp := nowSec + sessionTtlSec }
  { payload := p, sig := mac secret p }

/-- Outcome of `jwt.verify`: decoded claims, a `TokenExpiredError`, or any
other verification error (bad signature, malformed token). -/
inductive JwtVerifyResult where
  | ok (p : JwtPayload)
  | expired
  | invalid
deriving DecidableEq, Repr

/-- `jwt.verify(token, secret)` at clock time `nowSec`: the signature is
checked first; a verified token is then rejected with `TokenExpiredError`
when the current time has reached `exp`. -/
def jwtVerify (mac : String → JwtPayload → Nat) (secret : String)
    (nowSec : Nat) (t : Jwt) : JwtVerifyResult :=
  if t.sig ≠ mac secret t.payload then .invalid
  else if t.payload.exp ≤ nowSec then .expired
  else .ok t.payload

/-- `AuthResponseDTO`: the login response, combining the safe user projection
with the issued token. -/
structure AuthResponseDTO where
  user : UserResponseDTO
  token : Jwt
deriving DecidableEq, Repr

/-- The `AuthResponseDTO` constructor. -/
def AuthResponseDTO.ofUserToken (u : User) (t : Jwt) : AuthResponseDTO :=
  { user := UserResponseDTO.ofUser u, token := t }

/-! ### Middleware (`src/middlewares/auth.middleware.js`)

An Express middleware either calls `next()` (possibly after decorating the
request) or halts with a status and JSON body. -/

/-- Result of the `authenticate` middleware: either pass control on with the
decoded `req.userId` / `req.userEmail` / `req.userRole`, or halt with an HTTP
status and message. -/
inductive MwResult where
  | next (userId : JSVal) (userEmail : String) (userRole : String)
  | halt (status : Nat) (message : String)
deriving DecidableEq, Repr

/-- Outcome of the injected `jwt.verify` collaborator as observed by the
middleware's `catch`: decoded claims, a `TokenExpiredError`, or any other
error. -/
inductive VerifyOutcome where
  | ok (id : JSVal) (email : String) (role : String)
  | expired
  | invalid
deriving DecidableEq, Repr

/-- The `authenticate` middleware: requires an `Authorization` header with the
`Bearer ` prefix, strips the prefix (`substring(7)`), verifies the token, and
classifies the failures: missing/malformed header, `TokenExpiredError`, and
every other verification error. -/
def authenticate (verify : String → VerifyOutcome)
    (authHeader : Option String) : MwResult :=
  match authHeader with
  | none => .halt 401 "Token no proporcionado"
  | some h =>
    if !(jsStartsWith h "Bearer ") then .halt 401 "Token no proporcionado"
    else
      match verify (jsSubstringFrom h 7) with
      | .ok id email role => .next id email role
      | .expired => .halt 401 "Token expirado"
      | .invalid => .halt 401 "Token inválido"

/-- Result of the `authorize` / `authorizeRole` middlewares. -/
inductive AuthzDecision where
  | next
  | denied (status : Nat) (message : String)
deriving DecidableEq, Repr

/-- The owner-or-admin `authorize` middleware: admins always pass; otherwise
the request is denied unless `req.userId !== parseInt(req.params.id)` is
false, i.e. unless the JWT-carried id is strictly equal to the parsed path
parameter. -/
def authorize (userRole : String) (reqUserId : JSVal) (paramId : String) :
    AuthzDecision :=
  if userRole == "admin" then .next
  else if !(jsStrictEq reqUserId (jsParseInt paramId)) then
    .denied 403 "No tienes permiso para acceder a este recurso"
  else .next

/-! ### Service layer (`src/services/user.service.js`)

Collaborators are explicit parameters: `hash` for `bcrypt.hash`, `compare`
for `bcrypt.compare`, fresh random token values and Mongo ids as inputs, and
`nowMs` for `Date.now()`. The store is a `List User`; `user.save()` replaces
the document with the same id. -/

/-- The 24-hour lifetime of an email-verification token, in milliseconds. -/
def verificationWindowMs : Nat := 24 * 60 * 60 * 1000

/-- The 1-hour lifetime of a password-reset token, in milliseconds. -/
def resetWindowMs : Nat := 60 * 60 * 1000

/-- `user.save()`: persist the modified document, replacing the stored record
with the same id. -/
def saveUser (store : List User) (u : User) : List User :=
  store.map (fun v => if v.id == u.id then u else v)

/-- The Mongo query
`{ emailVerificationToken: token, emailVerificationTokenExpires: { $gt: now } }`:
a null expiry field compares false under `$gt`. -/
def matchesVerificationToken (token : String) (nowMs : Nat) (u : User) : Bool :=
  u.emailVerificationToken == some token &&
    (match u.emailVerificationTokenExpires with
     | some e => decide (nowMs < e)
     | none => false)

/-- The Mongo query
`{ passwordResetToken: token, passwordResetTokenExpires: { $gt: now } }`. -/
def matchesResetToken (token : String) (nowMs : Nat) (u : User) : Bool :=
  u.passwordResetToken == some token &&
    (match u.passwordResetTokenExpires with
     | some e => decide (nowMs < e)
     | none => false)

/-- Result of `UserService.createUser`: the DTO handed back to the controller,
the document returned by `User.create`, the updated store, and the
verification emails handed to the email collaborator. -/
structure CreateResult where
  response : UserResponseDTO
  created : User
  store : List User
  sent : List (String × String)
deriving DecidableEq, Repr

/-- `UserService.createUser`: rejects a duplicate email with 409, hashes the
password, creates the user with `role: createUserDTO.role || 'user'`, an
`isEmailVerified: false` flag and a fresh 24-hour verification token, and
sends the verification email. -/
def createUser (hash : String → String) (newId : String) (vtok : String)
    (nowMs : Nat) (dto : CreateUserDTO) (store : List User) :
    Except AppError CreateResult :=
  match store.find? (fun u => u.email == dto.email) with
  | some _ => .error ⟨"El email ya está registrado", 409⟩
  | none =>
    let newUser : User :=
      { id := newId
        email := dto.email
        password := hash dto.password
        firstName := dto.firstName
        lastName := dto.lastName
        bio := none
        role := dto.role.getD "user"
        isEmailVerified := false
        emailVerificationToken := some vtok
        emailVerificationTokenExpires := some (nowMs + verificationWindowMs)
        passwordResetToken := none
        passwordResetTokenExpires := none
        createdAt := nowMs
        updatedAt := nowMs }
    .ok { response := UserResponseDTO.ofUser newUser
          created := newUser
          store := store ++ [newUser]
          sent := [(dto.email, vtok)] }

/-- `UserService.verifyEmail`: finds the user by pending, unexpired
verification token; on a match sets `isEmailVerified` and nulls both token
fields; otherwise fails with the unified 400 error. -/
def verifyEmail (nowMs : Nat) (token : String) (store : List User) :
    Except AppError (MsgResponse × List User) :=
  match store.find? (matchesVerificationToken token nowMs) with
  | none => .error ⟨"Token de verificación inválido o expirado", 400⟩
  | some u =>
    let u' : User :=
      { u with isEmailVerified := true
               emailVerificationToken := none
               emailVerificationTokenExpires := none }
    .ok (⟨true, "Email verificado correctamente"⟩, saveUser store u')

/-- `UserService.resendVerificationEmail`: 404 when no user has the email,
400 when the email is already verified; otherwise stores a fresh 24-hour
verification token and resends the email. -/
def resendVerificationEmail (nowMs : Nat) (newTok : String) (email : String)
    (store : List User) :
    Except AppError (MsgResponse × List User × List (String × String)) :=
  match store.find? (fun u => u.email == email) with
  | none => .error ⟨"Usuario no encontrado", 404⟩
  | some u =>
    if u.isEmailVerified then .error ⟨"El email ya está verificado", 400⟩
    else
      let u' : User :=
        { u with emailVerificationToken := some newTok
                 emailVerificationTokenExpires :=
                   some (nowMs + verificationWindowMs) }
      .ok (⟨true, "Email de verificación reenviado"⟩,
           saveUser store u', [(email, newTok)])

/-- `UserService.login`: unknown email → 401; email not verified → 403
(before the password is even compared); wrong password → 401; otherwise
issues a token via the injected `generateToken` and returns the
`AuthResponseDTO`. -/
def login (email pwd : String) (compare : String → String → Bool)
    (genTok : String → String → String → Jwt) (store : List User) :
    Except AppError AuthResponseDTO :=
  match store.find? (fun u => u.email == email) with
  | none => .error ⟨"Credenciales inválidas", 401⟩
  | some u =>
    if !u.isEmailVerified then
      .error ⟨"Por favor verifica tu email antes de iniciar sesión", 403⟩
    else if !(compare pwd u.password) then
      .error ⟨"Credenciales inválidas", 401⟩
    else
      .ok (AuthResponseDTO.ofUserToken u (genTok u.id u.email u.role))

/-- Result of `UserService.requestPasswordReset`: the response body, the
updated store, and the reset emails handed to the email collaborator. -/
structure ResetRequestResult where
  body : MsgResponse
  store : List User
  sent : List (String × String)
deriving DecidableEq, Repr

/-- `UserService.requestPasswordReset`: for an unknown email it deliberately
returns the same success-shaped body without touching the store; for a known
email it stores a fresh 1-hour reset token and sends the email. -/
def requestPasswordReset (nowMs : Nat) (rtok : String) (email : String)
    (store : List User) : ResetRequestResult :=
  match store.find? (fun u => u.email == email) with
  | none =>
    { body := ⟨true, "Si el email existe, recibirás un enlace de reset"⟩
      store := store
      sent := [] }
  | some u =>
    let u' : User :=
      { u with passwordResetToken := some rtok
               passwordResetTokenExpires := some (nowMs + resetWindowMs) }
    { body := ⟨true, "Si el email existe, recibirás un enlace de reset"⟩
      store := saveUser store u'
      sent := [(email, rtok)] }

/-- `UserService.resetPassword`: finds the user by pending, unexpired reset
token; on a match replaces the password hash and nulls both reset-token
fields; otherwise fails with the unified 400 error. -/
def resetPassword (hash : String → String) (nowMs : Nat) (token : String)
    (newPassword : String) (store : List User) :
    Except AppError (MsgResponse × List User) :=
  match store.find? (matchesResetToken token nowMs) with
  | none => .error ⟨"Token de reset inválido o expirado", 400⟩
  | some u =>
    let u' : User :=
      { u with password := hash newPassword
               passwordResetToken := none
               passwordResetTokenExpires := none }
    .ok (⟨true, "Contraseña cambiada correctamente"⟩, saveUser store u')

/-! ### Concrete sample values

Closed collaborator instances and a sample store, used to instantiate the
universally quantified theorems below on concrete inputs. -/

/-- A concrete HMAC instance. -/
def demoMac : String → JwtPayload → Nat := fun _ _ => 0

/-- A concrete `jwt.verify` collaborator for the middleware. -/
def demoVerify : String → VerifyOutcome := fun t =>
  if t == "expired" then .expired
  else if t == "bad" then .invalid
  else .ok (.str "1") "ana@example.com" "user"

/-- A concrete password hasher. -/
def demoHash : String → String := fun s => s ++ "#h"

/-- A concrete `bcrypt.compare`, matching `demoHash`. -/
def demoCompare : String → String → Bool := fun p d => d == p ++ "#h"

/-- A concrete session token. -/
def demoTok : Jwt := generateToken demoMac "s" 0 (.str "1") "ana@example.com" "user"

/-- A concrete injected `generateToken` collaborator for `login`. -/
def demoGenTok : String → String → String → Jwt := fun _ _ _ => demoTok

/-- A sample stored user: unverified, holding a pending verification token
and a pending reset token. -/
def demoUser : User :=
  { id := "1"
    email := "ana@example.com"
    password := "pw#h"
    firstName := "Ana"
    lastName := "Diaz"
    bio := none
    role := "user"
    isEmailVerified := false
    emailVerificationToken := some "vt"
    emailVerificationTokenExpires := some 1000
    passwordResetToken := some "rt"
    passwordResetTokenExpires := some 1000
    createdAt := 0
    updatedAt := 0 }

/-- `demoUser` after a successful email verification. -/
def demoUserAfterVerify : User :=
  { demoUser with isEmailVerified := true
                  emailVerificationToken := none
                  emailVerificationTokenExpires := none }

/-- `demoUser` after a successful password reset with new password `new`. -/
def demoUserAfterReset : User :=
  { demoUser with password := demoHash "new"
                  passwordResetToken := none
                  passwordResetTokenExpires := none }

/-- A sample stored user whose email is already verified. -/
def demoVerifiedUser : User :=
  { demoUser with isEmailVerified := true
                  emailVerificationToken := none
                  emailVerificationTokenExpires := none }

/-! ### Claims -/

/-- C1: the claim says `authorize` allows the owner, normalizing the string
path parameter against the stored id so an owner is never falsely denied.
The code compares `req.userId !== parseInt(req.params.id)` with strict
inequality, and the Mongoose virtual `user.id` put into the JWT is a string,
so for a non-admin the string id is never strictly equal to the numeric
`parseInt` result: the owner is denied (403) even when the path parameter is
exactly their own id. -/
theorem spec_c1_owner_denied_on_string_id :
    authorize "user" (JSVal.str "68b1c2a9") "68b1c2a9"
      = .denied 403 "No tienes permiso para acceder a este recurso" := by
  decide

/-- C4 counterexample: `resendVerificationEmail` for an email with no
matching identity does not return a uniform success-shaped response; it
fails with the 404 `Usuario no encontrado` error, revealing that the email
does not exist. -/
theorem spec_c4_counterexample :
    resendVerificationEmail 0 "t" "ghost@example.com" []
      = .error ⟨"Usuario no encontrado", 404⟩ := rfl

/-- C4 (amended): for every email with no matching identity,
`resendVerificationEmail` fails with the 404 `Usuario no encontrado` error
(rather than returning a uniform success-shaped response). -/
theorem spec_c4_amended_unknown_email_404 (nowMs : Nat) (tok email : String)
    (store : List User)
    (h : store.find? (fun u => u.email == email) = none) :
    resendVerificationEmail nowMs tok email store
      = .error ⟨"Usuario no encontrado", 404⟩ := by
  simp [resendVerificationEmail, h]

/-- C4 witness: the amended statement at a concrete input. -/
theorem spec_c4_amended_unknown_email_404_witness :
    resendVerificationEmail 7 "tk" "nobody@example.com" []
      = .error ⟨"Usuario no encontrado", 404⟩ :=
  spec_c4_amended_unknown_email_404 7 "tk" "nobody@example.com" [] rfl

/-- C10: the public response projections are independent of the stored
secrets. `UserResponseDTO` (and therefore `AuthResponseDTO`, which embeds it)
yields exactly `id`, `email`, `firstName`, `lastName`, `bio`, `createdAt` and
`updatedAt`, and varying the stored password hash, email-verification token
fields or password-reset token fields never changes the response. -/
theorem spec_c10_dto_secret_independence :
    (∀ (u : User) (p : String) (vt : Option String) (vte : Option Nat)
        (rt : Option String) (rte : Option Nat),
      UserResponseDTO.ofUser
        { u with password := p
                 emailVerificationToken := vt
                 emailVerificationTokenExpires := vte
                 passwordResetToken := rt
                 passwordResetTokenExpires := rte }
        = UserResponseDTO.ofUser u)
    ∧ (∀ (u : User) (tok : Jwt) (p : String) (vt : Option String)
          (vte : Option Nat) (rt : Option String) (rte : Option Nat),
      AuthResponseDTO.ofUserToken
        { u with password := p
                 emailVerificationToken := vt
                 emailVerificationTokenExpires := vte
                 passwordResetToken := rt
                 passwordResetTokenExpires := rte } tok
        = AuthResponseDTO.ofUserToken u tok)
    ∧ (∀ u : User,
      UserResponseDTO.ofUser u
        = ⟨u.id, u.email, u.firstName, u.lastName, jsOrNull u.bio,
           u.createdAt, u.updatedAt⟩) :=
  ⟨fun _ _ _ _ _ _ => rfl, fun _ _ _ _ _ _ _ => rfl, fun _ => rfl⟩

/-- C3: `requestPasswordReset` for an unregistered email and for a registered
email return structurally identical success-shaped response bodies — the
literal `{ success: true, message: 'Si el email existe, recibirás un enlace
de reset' }` in both cases — so the response does not reveal whether the
email exists. -/
theorem spec_c3_enumeration_resistance (nowMs : Nat) (tok1 tok2 e1 e2 : String)
    (store : List User)
    (h1 : store.find? (fun u => u.email == e1) = none)
    (h2 : (store.find? (fun u => u.email == e2)).isSome) :
    (requestPasswordReset nowMs tok1 e1 store).body
      = (requestPasswordReset nowMs tok2 e2 store).body
    ∧ (requestPasswordReset nowMs tok1 e1 store).body
      = ⟨true, "Si el email existe, recibirás un enlace de reset"⟩ := by
  obtain ⟨u, hu⟩ := Option.isSome_iff_exists.mp h2
  constructor
  · simp [requestPasswordReset, h1, hu]
  · simp [requestPasswordReset, h1]

/-- C3 witness: an absent and a present email on the sample store. -/
theorem spec_c3_enumeration_resistance_witness :
    (requestPasswordReset 5 "t1" "ghost@example.com" [demoVerifiedUser]).body
      = (requestPasswordReset 5 "t2" "ana@example.com" [demoVerifiedUser]).body
    ∧ (requestPasswordReset 5 "t1" "ghost@example.com" [demoVerifiedUser]).body
      = ⟨true, "Si el email existe, recibirás un enlace de reset"⟩ :=
  spec_c3_enumeration_resistance 5 "t1" "t2" "ghost@example.com"
    "ana@example.com" [demoVerifiedUser] (by decide) (by decide)

/-- C5: for a stored identity with `isEmailVerified = false`, `login` with
that identity's email fails with the 403 `EmailNotVerified` error even when
the password comparison would succeed — it never returns a token. -/
theorem spec_c5_unverified_login_rejected (email pwd : String)
    (compare : String → String → Bool)
    (genTok : String → String → String → Jwt) (store : List User) (u : User)
    (hfind : store.find? (fun v => v.email == email) = some u)
    (hunv : u.isEmailVerified = false)
    (hpwd : compare pwd u.password = true) :
    login email pwd compare genTok store
      = .error ⟨"Por favor verifica tu email antes de iniciar sesión", 403⟩ := by
  simp [login, hfind, hunv]

/-- C5 witness: the unverified sample user with the correct password. -/
theorem spec_c5_unverified_login_rejected_witness :
    login "ana@example.com" "pw" demoCompare demoGenTok [demoUser]
      = .error ⟨"Por favor verifica tu email antes de iniciar sesión", 403⟩ :=
  spec_c5_unverified_login_rejected "ana@example.com" "pw" demoCompare
    demoGenTok [demoUser] demoUser (by decide) (by decide) (by decide)

/-- C6: round-trip of the token codec. Verifying a token produced by
`generateToken` at any clock time strictly before its expiry returns the
same `id`, `email` and `role` claims unchanged; at any time at or after
expiry it returns the `TokenExpiredError` outcome. -/
theorem spec_c6_round_trip (mac : String → JwtPayload → Nat) (secret : String)
    (id : JSVal) (email role : String) (nowSec t : Nat) :
    (t < nowSec + sessionTtlSec →
      jwtVerify mac secret t (generateToken mac secret nowSec id email role)
        = .ok ⟨id, email, role, nowSec, nowSec + sessionTtlSec⟩)
    ∧ (nowSec + sessionTtlSec ≤ t →
      jwtVerify mac secret t (generateToken mac secret nowSec id email role)
        = .expired) := by
  constructor
  · intro h
    simp [jwtVerify, generateToken, Nat.not_le.mpr h]
  · intro h
    simp [jwtVerify, generateToken, h]

/-- C6 witness: a concrete token checked just before and exactly at expiry. -/
theorem spec_c6_round_trip_witness :
    jwtVerify demoMac "s" 10
        (generateToken demoMac "s" 0 (JSVal.str "1") "ana@example.com" "user")
      = .ok ⟨JSVal.str "1", "ana@example.com", "user", 0, 0 + sessionTtlSec⟩
    ∧ jwtVerify demoMac "s" 86400
        (generateToken demoMac "s" 0 (JSVal.str "1") "ana@example.com" "user")
      = .expired :=
  ⟨(spec_c6_round_trip demoMac "s" (JSVal.str "1") "ana@example.com" "user"
      0 10).1 (by decide),
   (spec_c6_round_trip demoMac "s" (JSVal.str "1") "ana@example.com" "user"
      0 86400).2 (by decide)⟩

/-- C7: the session authenticator classifies its failures into exactly three
401 responses: a missing header or one without the `Bearer ` prefix yields
`Token no proporcionado`; a token rejected as expired yields
`Token expirado`; any other verification failure yields `Token inválido`;
and the three responses are pairwise distinct. -/
theorem spec_c7_failure_classification (verify : String → VerifyOutcome) :
    (authenticate verify none = .halt 401 "Token no proporcionado")
    ∧ (∀ h : String, jsStartsWith h "Bearer " = false →
        authenticate verify (some h) = .halt 401 "Token no proporcionado")
    ∧ (∀ h : String, jsStartsWith h "Bearer " = true →
        verify (jsSubstringFrom h 7) = .expired →
        authenticate verify (some h) = .halt 401 "Token expirado")
    ∧ (∀ h : String, jsStartsWith h "Bearer " = true →
        verify (jsSubstringFrom h 7) = .invalid →
        authenticate verify (some h) = .halt 401 "Token inválido")
    ∧ (MwResult.halt 401 "Token no proporcionado" ≠ .halt 401 "Token expirado"
       ∧ MwResult.halt 401 "Token no proporcionado" ≠ .halt 401 "Token inválido"
       ∧ MwResult.halt 401 "Token expirado" ≠ .halt 401 "Token inválido") := by
  refine ⟨rfl, ?_, ?_, ?_, by decide, by decide, by decide⟩
  · intro h hpre
    simp [authenticate, hpre]
  · intro h hpre hv
    simp [authenticate, hpre, hv]
  · intro h hpre hv
    simp [authenticate, hpre, hv]

/-- C7 witness: the three failure classes on concrete headers under the
concrete verifier. -/
theorem spec_c7_failure_classification_witness :
    authenticate demoVerify (some "Token abc")
      = .halt 401 "Token no proporcionado"
    ∧ authenticate demoVerify (some "Bearer expired")
      = .halt 401 "Token expirado"
    ∧ authenticate demoVerify (some "Bearer bad")
      = .halt 401 "Token inválido" :=
  ⟨(spec_c7_failure_classification demoVerify).2.1 "Token abc" (by decide),
   (spec_c7_failure_classification demoVerify).2.2.1 "Bearer expired"
     (by decide) (by decide),
   (spec_c7_failure_classification demoVerify).2.2.2.1 "Bearer bad"
     (by decide) (by decide)⟩

/-- C8: every issued session token carries `exp = iat + 24h`; a password
reset request for an existing user stores a reset token expiring exactly one
hour after issuance; and the 1-hour reset window is strictly shorter than
the 24-hour email-verification window. -/
theorem spec_c8_expiry_windows (mac : String → JwtPayload → Nat)
    (secret : String) (nowSec : Nat) (id : JSVal) (email role : String)
    (nowMs : Nat) (rtok remail : String) (store : List User) (u : User)
    (hfind : store.find? (fun v => v.email == remail) = some u) :
    (generateToken mac secret nowSec id email role).payload.exp
      = (generateToken mac secret nowSec id email role).payload.iat
        + 24 * 60 * 60
    ∧ (∃ u' ∈ (requestPasswordReset nowMs rtok remail store).store,
        u'.id = u.id ∧ u'.passwordResetToken = some rtok
        ∧ u'.passwordResetTokenExpires = some (nowMs + 60 * 60 * 1000))
    ∧ resetWindowMs < verificationWindowMs := by
  refine ⟨rfl, ?_, by decide⟩
  have hu : u ∈ store := List.mem_of_find?_eq_some hfind
  refine ⟨{ u with passwordResetToken := some rtok
                   passwordResetTokenExpires := some (nowMs + resetWindowMs) },
          ?_, rfl, rfl, rfl⟩
  simp only [requestPasswordReset, hfind, saveUser]
  exact List.mem_map.mpr ⟨u, hu, by simp⟩

/-- C8 witness: concrete token issuance and reset request on the sample
store. -/
theorem spec_c8_expiry_windows_witness :
    (generateToken demoMac "s" 5 (JSVal.str "1") "ana@example.com"
        "user").payload.exp
      = (generateToken demoMac "s" 5 (JSVal.str "1") "ana@example.com"
          "user").payload.iat + 24 * 60 * 60
    ∧ (∃ u' ∈ (requestPasswordReset 9 "rt2" "ana@example.com"
          [demoVerifiedUser]).store,
        u'.id = demoVerifiedUser.id ∧ u'.passwordResetToken = some "rt2"
        ∧ u'.passwordResetTokenExpires = some (9 + 60 * 60 * 1000))
    ∧ resetWindowMs < verificationWindowMs :=
  spec_c8_expiry_windows demoMac "s" 5 (JSVal.str "1") "ana@example.com"
    "user" 9 "rt2" "ana@example.com" [demoVerifiedUser] demoVerifiedUser
    (by decide)

/-- C9: registration can never produce an identity with a client-chosen
role. `CreateUserDTO` copies only `email`, `password`, `firstName` and
`lastName` from the request body, so `createUserDTO.role || 'user'` in the
service always falls back to `'user'`, whatever `role` the client sent. -/
theorem spec_c9_role_not_client_settable (hash : String → String)
    (newId vtok : String) (nowMs : Nat) (body : RegisterBody)
    (store : List User)
    (h : store.find?
        (fun u => u.email == (CreateUserDTO.fromBody body).email) = none) :
    ∃ r, createUser hash newId vtok nowMs (CreateUserDTO.fromBody body) store
        = .ok r
      ∧ r.created.role = "user" := by
  unfold createUser
  rw [h]
  exact ⟨_, rfl, rfl⟩

/-- A user matched by the verification-token query holds that token value. -/
theorem matchesVerificationToken_token_eq {token : String} {nowMs : Nat}
    {u : User} (h : matchesVerificationToken token nowMs u = true) :
    u.emailVerificationToken = some token := by
  simp only [matchesVerificationToken, Bool.and_eq_true, beq_iff_eq] at h
  exact h.1

/-- A user matched by the reset-token query holds that token value. -/
theorem matchesResetToken_token_eq {token : String} {nowMs : Nat}
    {u : User} (h : matchesResetToken token nowMs u = true) :
    u.passwordResetToken = some token := by
  simp only [matchesResetToken, Bool.and_eq_true, beq_iff_eq] at h
  exact h.1

/-- After a successful `verifyEmail`, the same token value no longer matches
any stored user, provided the token was held by at most one user. -/
theorem verifyEmail_replay_error (nowMs nowMs2 : Nat) (token : String)
    (store store2 : List User) (r : MsgResponse)
    (hok : verifyEmail nowMs token store = .ok (r, store2))
    (huniq : ∀ v ∈ store, ∀ w ∈ store,
        v.emailVerificationToken = some token →
        w.emailVerificationToken = some token → v.id = w.id) :
    verifyEmail nowMs2 token store2
      = .error ⟨"Token de verificación inválido o expirado", 400⟩ := by
  unfold verifyEmail at hok
  cases hfind : store.find? (matchesVerificationToken token nowMs) with
  | none => rw [hfind] at hok; exact Except.noConfusion hok
  | some u =>
    rw [hfind] at hok
    have hu_mem : u ∈ store := List.mem_of_find?_eq_some hfind
    have hu_tok : u.emailVerificationToken = some token :=
      matchesVerificationToken_token_eq (List.find?_some hfind)
    have hok' := (Except.ok.injEq _ _).mp hok
    have hstore2 : store2
        = saveUser store
            { u with isEmailVerified := true
                     emailVerificationToken := none
                     emailVerificationTokenExpires := none } :=
      ((Prod.mk.injEq _ _ _ _).mp hok').2.symm
    have hnone : store2.find? (matchesVerificationToken token nowMs2)
        = none := by
      rw [hstore2, List.find?_eq_none]
      intro x hx
      unfold saveUser at hx
      rw [List.mem_map] at hx
      obtain ⟨v, hv, hxv⟩ := hx
      by_cases hid : v.id = u.id
      · have hx' : x
            = { u with isEmailVerified := true
                       emailVerificationToken := none
                       emailVerificationTokenExpires := none } := by
          rw [← hxv]; simp [hid]
        rw [hx']
        simp [matchesVerificationToken]
      · have hx' : x = v := by rw [← hxv]; simp [hid]
        rw [hx']
        intro hmatch
        exact hid (huniq v hv u hu_mem
          (matchesVerificationToken_token_eq hmatch) hu_tok)
    unfold verifyEmail
    rw [hnone]

/-- After a successful `resetPassword`, the same token value no longer
matches any stored user, provided the token was held by at most one user. -/
theorem resetPassword_replay_error (hash : String → String)
    (nowMs nowMs2 : Nat) (token newPwd : String) (store store2 : List User)
    (r : MsgResponse)
    (hok : resetPassword hash nowMs token newPwd store = .ok (r, store2))
    (huniq : ∀ v ∈ store, ∀ w ∈ store,
        v.passwordResetToken = some token →
        w.passwordResetToken = some token → v.id = w.id)
    (newPwd2 : String) :
    resetPassword hash nowMs2 token newPwd2 store2
      = .error ⟨"Token de reset inválido o expirado", 400⟩ := by
  unfold resetPassword at hok
  cases hfind : store.find? (matchesResetToken token nowMs) with
  | none => rw [hfind] at hok; exact Except.noConfusion hok
  | some u =>
    rw [hfind] at hok
    have hu_mem : u ∈ store := List.mem_of_find?_eq_some hfind
    have hu_tok : u.passwordResetToken = some token :=
      matchesResetToken_token_eq (List.find?_some hfind)
    have hok' := (Except.ok.injEq _ _).mp hok
    have hstore2 : store2
        = saveUser store
            { u with password := hash newPwd
                     passwordResetToken := none
                     passwordResetTokenExpires := none } :=
      ((Prod.mk.injEq _ _ _ _).mp hok').2.symm
    have hnone : store2.find? (matchesResetToken token nowMs2) = none := by
      rw [hstore2, List.find?_eq_none]
      intro x hx
      unfold saveUser at hx
      rw [List.mem_map] at hx
      obtain ⟨v, hv, hxv⟩ := hx
      by_cases hid : v.id = u.id
      · have hx' : x
            = { u with password := hash newPwd
                       passwordResetToken := none
                       passwordResetTokenExpires := none } := by
          rw [← hxv]; simp [hid]
        rw [hx']
        simp [matchesResetToken]
      · have hx' : x = v := by rw [← hxv]; simp [hid]
        rw [hx']
        intro hmatch
        exact hid (huniq v hv u hu_mem
          (matchesResetToken_token_eq hmatch) hu_tok)
    unfold resetPassword
    rw [hnone]

/-- C2: for both ephemeral-token kinds, redeeming the same value twice in
sequence makes the second redemption fail with the unified 400
`InvalidOrExpiredToken` error: the first success nulls the stored token
fields, so — the token value being held by at most one user — no stored
token matches the replayed value, at any later clock time. -/
theorem spec_c2_tokens_single_use :
    (∀ (nowMs nowMs2 : Nat) (token : String) (store store2 : List User)
        (r : MsgResponse),
      verifyEmail nowMs token store = .ok (r, store2) →
      (∀ v ∈ store, ∀ w ∈ store,
          v.emailVerificationToken = some token →
          w.emailVerificationToken = some token → v.id = w.id) →
      verifyEmail nowMs2 token store2
        = .error ⟨"Token de verificación inválido o expirado", 400⟩)
    ∧ (∀ (hash : String → String) (nowMs nowMs2 : Nat)
        (token newPwd : String) (store store2 : List User) (r : MsgResponse),
      resetPassword hash nowMs token newPwd store = .ok (r, store2) →
      (∀ v ∈ store, ∀ w ∈ store,
          v.passwordResetToken = some token →
          w.passwordResetToken = some token → v.id = w.id) →
      ∀ newPwd2 : String,
        resetPassword hash nowMs2 token newPwd2 store2
          = .error ⟨"Token de reset inválido o expirado", 400⟩) :=
  ⟨fun nowMs nowMs2 token store store2 r hok huniq =>
      verifyEmail_replay_error nowMs nowMs2 token store store2 r hok huniq,
   fun hash nowMs nowMs2 token newPwd store store2 r hok huniq newPwd2 =>
      resetPassword_replay_error hash nowMs nowMs2 token newPwd store store2
        r hok huniq newPwd2⟩

/-- C2 witness: the concrete replay scenario on the sample store — the first
redemption succeeded at time 50 and the replay at time 60 fails with the
unified 400 error, for both token kinds. -/
theorem spec_c2_tokens_single_use_witness :
    verifyEmail 60 "vt" [demoUserAfterVerify]
      = .error ⟨"Token de verificación inválido o expirado", 400⟩
    ∧ resetPassword demoHash 60 "rt" "other" [demoUserAfterReset]
      = .error ⟨"Token de reset inválido o expirado", 400⟩ :=
  ⟨spec_c2_tokens_single_use.1 50 60 "vt" [demoUser] [demoUserAfterVerify]
      ⟨true, "Email verificado correctamente"⟩ rfl (by decide),
   spec_c2_tokens_single_use.2 demoHash 50 60 "rt" "new" [demoUser]
      [demoUserAfterReset] ⟨true, "Contraseña cambiada correctamente"⟩ rfl
      (by decide) "other"⟩

/-- C9 witness: a registration body that tries to claim the admin role. -/
theorem spec_c9_role_not_client_settable_witness :
    ∃ r, createUser demoHash "9" "vt9" 0
        (CreateUserDTO.fromBody
          ⟨"Eve@Example.com", "pw", " Eve ", " Vil ", some "admin"⟩) []
        = .ok r
      ∧ r.created.role = "user" :=
  spec_c9_role_not_client_settable demoHash "9" "vt9" 0
    ⟨"Eve@Example.com", "pw", " Eve ", " Vil ", some "admin"⟩ [] rfl

end ApiRest
